import Mathlib

/-!
Shallow embedding of `src/jina/peapods/peas/__init__.py` (module `jina.peapods.peas`):
the `run` entry point (lines 21-99) and the `BasePea` supervisor (lines 102-414).

Modelling conventions:
* The four concurrency events are booleans in an `EventSet` record.
* Side effects (logging, sending control messages, terminating, joining) are
  recorded as steps in an explicit trace list, in source order.
* A call that may raise in Python is modelled by an outcome value; an exception
  swallowed by an `except` clause never reaches the outcome.
* External collaborators (the control channel, the hub resolver) are parameters
  of the embedding: a boolean telling whether the call succeeds, or a function
  standing for the external computation.
-/

/-- Equality of `Except` results is decidable when both components have
decidable equality (needed to decide statements about fallible operations). -/
instance exceptDecEq {ε α : Type} [DecidableEq ε] [DecidableEq α] :
    DecidableEq (Except ε α)
  | Except.ok a, Except.ok b =>
    if h : a = b then Decidable.isTrue (by rw [h])
    else Decidable.isFalse (fun hh => h (Except.ok.inj hh))
  | Except.ok _, Except.error _ => Decidable.isFalse (fun hh => Except.noConfusion hh)
  | Except.error _, Except.ok _ => Decidable.isFalse (fun hh => Except.noConfusion hh)
  | Except.error e, Except.error f =>
    if h : e = f then Decidable.isTrue (by rw [h])
    else Decidable.isFalse (fun hh => h (Except.error.inj hh))

set_option maxRecDepth 16384

namespace Jina

/-- `RuntimeBackendType` from `jina.enums`: the execution model of the worker. -/
inductive RuntimeBackendType
  | THREAD
  | PROCESS
deriving DecidableEq, Repr, Fintype

/-- The four one-shot concurrency events owned by a `BasePea`
(`is_started`, `is_shutdown`, `is_ready`, `cancel_event`; lines 140-143). -/
structure EventSet where
  is_started : Bool
  is_shutdown : Bool
  is_ready : Bool
  cancel_event : Bool
deriving DecidableEq, Repr, Fintype

/-- Observable steps of the entry point `run` (lines 21-99), in source order. -/
inductive RunStep
  | warnThreadEnv
  | applyEnvs
  | constructRuntime
  | logConstructionError
  | setStarted
  | enterRuntime
  | runForever
  | exitRuntime
  | unsetEnvs
  | setShutdown
deriving DecidableEq, Repr, Fintype

/-- Whether `run` itself returns normally or lets an exception escape. -/
inductive RunOutcome
  | normal
  | raised
deriving DecidableEq, Repr, Fintype

/-- Result of one execution of the entry point `run`. -/
structure RunResult where
  trace : List RunStep
  events : EventSet
  outcome : RunOutcome
deriving DecidableEq, Repr

/-- `_set_envs` (lines 67-74): only when `args.env` is truthy, either warn
(thread backend) or apply the whole `envs` dict to `os.environ`. -/
def _set_envs (backend : RuntimeBackendType) (argsEnvNonempty : Bool) : List RunStep :=
  if argsEnvNonempty then
    if backend = RuntimeBackendType.THREAD then [RunStep.warnThreadEnv]
    else [RunStep.applyEnvs]
  else []

/-- `_unset_envs` (lines 62-65): when `envs` is nonempty and the backend is not
thread, unset every key of `envs` (note: keyed on `envs`, not on `args.env`). -/
def _unset_envs (backend : RuntimeBackendType) (envsNonempty : Bool) : List RunStep :=
  if envsNonempty ∧ backend ≠ RuntimeBackendType.THREAD then [RunStep.unsetEnvs]
  else []

/-- The entry point `run` (lines 76-99), as a function of the backend, whether
`args.env` is truthy, whether the `envs` dict is nonempty (a `BasePea` always
passes a nonempty dict, lines 124-128), whether `runtime_cls(...)` construction
succeeds, whether the `with runtime: runtime.run_forever()` block completes
without an exception, and the incoming event state.

Source structure: `try: _set_envs(); runtime = runtime_cls(...)` /
`except: logger.error(...)` / `else: is_started.set(); with runtime:
runtime.run_forever()` / `finally: _unset_envs(); is_shutdown.set()`.
The `except` clause covers only the `try` body, so an exception raised in the
`else` block runs the `finally` clause and then escapes `run`. -/
def run (backend : RuntimeBackendType) (argsEnvNonempty envsNonempty : Bool)
    (constructionOk runForeverOk : Bool) (ev : EventSet) : RunResult :=
  let setSteps := _set_envs backend argsEnvNonempty
  let unsetSteps := _unset_envs backend envsNonempty
  if constructionOk then
    { trace := setSteps ++
        [RunStep.constructRuntime, RunStep.setStarted, RunStep.enterRuntime,
         RunStep.runForever, RunStep.exitRuntime] ++ unsetSteps ++ [RunStep.setShutdown]
      events := { ev with is_started := true, is_shutdown := true }
      outcome := if runForeverOk then RunOutcome.normal else RunOutcome.raised }
  else
    { trace := setSteps ++ [RunStep.constructRuntime, RunStep.logConstructionError] ++
        unsetSteps ++ [RunStep.setShutdown]
      events := { ev with is_shutdown := true }
      outcome := RunOutcome.normal }

/-- The errors `wait_start_success` (lines 261-290) can raise. -/
inductive PeaError
  | runtimeFailToStart
  | runtimeRunForeverEarlyError
  | timeoutError
deriving DecidableEq, Repr, Fintype

/-- `BasePea.wait_start_success` (lines 261-290) as a function of whether
`self.ready_or_shutdown.event.wait(_timeout)` returned `True` (the combinator
fired within the ready timeout) and the event state at that moment.
In the timeout branch the source also calls `self.close()` before raising
`TimeoutError`; that call is modelled separately by `close`. -/
def wait_start_success (combinatorFired : Bool) (ev : EventSet) : Except PeaError Unit :=
  if combinatorFired then
    if ev.is_shutdown then
      if ¬ ev.is_started then Except.error PeaError.runtimeFailToStart
      else Except.error PeaError.runtimeRunForeverEarlyError
    else Except.ok ()
  else Except.error PeaError.timeoutError

/-- Observable steps of `BasePea.close` (lines 299-361), in source order. -/
inductive CloseStep
  | deactivate
  | sendTerminate
  | setCancelFlag
  | waitShutdown
  | terminate
  | logError
  | join
  | warnNotReady
  | waitReadyOrShutdown
  | warnLastResort
  | closeLogger
deriving DecidableEq, Repr, Fintype

/-- Whether `close` returns normally or propagates an exception to its caller. -/
inductive CloseOutcome
  | normal
  | raisedShutdownAckTimeout
  | raisedControlChannelFailure
deriving DecidableEq, Repr, Fintype

set_option synthInstance.maxSize 400 in
/-- The environment of one `close` call: the configuration flags it reads and
the results of the blocking calls it makes.
`isDealer` is `args.socket_in == SocketType.DEALER_CONNECT` (line 297);
`hasCtrlListener` is `runtime_cls ∈ {ZEDRuntime, ContainerRuntime}` (line 256);
`deactivateOk` / `terminateCmdOk` tell whether the retried DEACTIVATE /
TERMINATE control message eventually succeeds (otherwise
`_retry_control_message` re-raises the last transport error);
`shutdownArrives` is the result of `is_shutdown.wait(timeout=timeout_ctrl)`;
`lateFires` / `lateReady` are, in the not-yet-ready branch, the result of
`ready_or_shutdown.event.wait(_timeout)` and of `is_ready.is_set()` after it. -/
structure CloseEnv where
  isDealer : Bool
  hasCtrlListener : Bool
  daemon : Bool
  deactivateOk : Bool
  terminateCmdOk : Bool
  shutdownArrives : Bool
  lateFires : Bool
  lateReady : Bool
deriving DecidableEq, Repr, Fintype

/-- `BasePea._deactivate_runtime` (lines 246-249): if dealer, send DEACTIVATE
with retries. Returns emitted steps and whether the call completed without
raising. -/
def _deactivate_runtime (c : CloseEnv) : List CloseStep × Bool :=
  if c.isDealer then ([CloseStep.deactivate], c.deactivateOk) else ([], true)

/-- `BasePea._cancel_runtime` (lines 251-259): for `ZEDRuntime` /
`ContainerRuntime` send TERMINATE with retries, otherwise set `cancel_event`. -/
def _cancel_runtime (c : CloseEnv) : List CloseStep × Bool :=
  if c.hasCtrlListener then ([CloseStep.sendTerminate], c.terminateCmdOk)
  else ([CloseStep.setCancelFlag], true)

/-- `BasePea.close` (lines 299-361) as a trace-producing function.

Branch 1 (`is_ready and not is_shutdown`, lines 306-327): inside a
`try` clause, deactivate, cancel, then wait for shutdown; on a missed
shutdown ack, terminate and raise; the enclosing `except` catches any of
these exceptions and logs them, so branch 1 never raises; afterwards, when
not in daemon mode, join the worker.

Branch 2 (`is_shutdown` already set, lines 328-330): pass.

Branch 3 (neither ready nor shutdown, lines 331-359): warn, wait on the
ready-or-shutdown combinator for the ready timeout; if it fires with
`is_ready` set, cancel (no deactivate) and wait for shutdown, terminating
and raising — uncaught — on a missed ack; if the combinator wait times
out, warn and terminate as a last resort.

All normally-returning paths end with `logger.close()` (line 361); the
uncaught raises of branch 3 skip it. -/
def close (ev : EventSet) (c : CloseEnv) : List CloseStep × CloseOutcome :=
  if ev.is_ready ∧ ¬ ev.is_shutdown then
    let d := _deactivate_runtime c
    let tryResult :=
      if ¬ d.2 then (d.1, true)
      else
        let cr := _cancel_runtime c
        if ¬ cr.2 then (d.1 ++ cr.1, true)
        else if c.shutdownArrives then (d.1 ++ cr.1 ++ [CloseStep.waitShutdown], false)
        else (d.1 ++ cr.1 ++ [CloseStep.waitShutdown, CloseStep.terminate], true)
    let caught := if tryResult.2 then tryResult.1 ++ [CloseStep.logError] else tryResult.1
    let joined := if ¬ c.daemon then caught ++ [CloseStep.join] else caught
    (joined ++ [CloseStep.closeLogger], CloseOutcome.normal)
  else if ev.is_shutdown then
    ([CloseStep.closeLogger], CloseOutcome.normal)
  else
    let pre := [CloseStep.warnNotReady, CloseStep.waitReadyOrShutdown]
    if c.lateFires then
      if c.lateReady then
        let cr := _cancel_runtime c
        if ¬ cr.2 then (pre ++ cr.1, CloseOutcome.raisedControlChannelFailure)
        else if c.shutdownArrives then
          (pre ++ cr.1 ++ [CloseStep.waitShutdown, CloseStep.closeLogger],
           CloseOutcome.normal)
        else
          (pre ++ cr.1 ++ [CloseStep.waitShutdown, CloseStep.terminate],
           CloseOutcome.raisedShutdownAckTimeout)
      else (pre ++ [CloseStep.closeLogger], CloseOutcome.normal)
    else
      (pre ++ [CloseStep.warnLastResort, CloseStep.terminate, CloseStep.closeLogger],
       CloseOutcome.normal)

/-- The loop body of `BasePea._retry_control_message` (lines 223-239), with the
iterations still to run as structural fuel. `retryGo send retry fuel` models
`for r in range(retry, retry + fuel)`: attempt `send r`; on success break; on
failure, if this was the last iteration re-raise the error, else continue.
`send r = none` means attempt `r` succeeded; `send r = some e` means it raised
transport error `e`. Returns the number of sends performed and the re-raised
error, if any. -/
def retryGo (send : Nat → Option String) (retry : Nat) : Nat → Nat × Option String
  | 0 => (0, none)
  | fuel + 1 =>
    match send retry with
    | none => (1, none)
    | some e =>
      if fuel = 0 then (1, some e)
      else
        let r := retryGo send (retry + 1) fuel
        (r.1 + 1, r.2)

/-- `BasePea._retry_control_message(command, num_retry=3)` (lines 223-239):
runs the retry loop for attempts `1 .. num_retry`. `send` stands for
`send_ctrl_message(ctrl_address, command, timeout, raise_exception=True)`
as a function of the command and the attempt number. -/
def _retry_control_message (send : String → Nat → Option String) (command : String)
    (num_retry : Nat := 3) : Nat × Option String :=
  retryGo (send command) 1 num_retry

/-- `GatewayProtocolType` from `jina.enums`. -/
inductive GatewayProtocolType
  | GRPC
  | WEBSOCKET
  | HTTP
deriving DecidableEq, Repr, Fintype

/-- The `gateway_runtime_dict` of `_get_runtime_cls` (lines 370-374). -/
def gateway_runtime_dict : GatewayProtocolType → String
  | GatewayProtocolType.GRPC => "GRPCRuntime"
  | GatewayProtocolType.WEBSOCKET => "WebSocketRuntime"
  | GatewayProtocolType.HTTP => "HTTPRuntime"

/-- `gateway_runtime_dict.values()` as a list, in source order. -/
def gatewayRuntimeNames : List String := ["GRPCRuntime", "WebSocketRuntime", "HTTPRuntime"]

/-- The fields of `self.args` read and mutated by `_get_runtime_cls`
(lines 369-398). `protocol = some p` models `hasattr(self.args, 'protocol')`
being true with value `p` (only gateway peas carry that attribute). -/
structure RuntimeArgs where
  runtime_cls : String
  host : String
  disable_remote : Bool
  uses : String
  protocol : Option GatewayProtocolType
  timeout_ready : Int
deriving DecidableEq, Repr

/-- Lines 375-383: if not already a gateway runtime, the host is remote and
remote execution is enabled, switch to `JinadRuntime` and disable the ready
timeout. -/
def selectRemote (defaultHost : String) (a : RuntimeArgs) : RuntimeArgs :=
  if ¬ gatewayRuntimeNames.contains a.runtime_cls ∧ a.host ≠ defaultHost ∧
      ¬ a.disable_remote then
    { a with runtime_cls := "JinadRuntime", timeout_ready := -1 }
  else a

/-- Lines 384-387: a `ZEDRuntime` whose `uses` is a `docker://` reference
becomes a `ContainerRuntime`. -/
def selectDocker (a : RuntimeArgs) : RuntimeArgs :=
  if a.runtime_cls = "ZEDRuntime" ∧ a.uses.startsWith "docker://" then
    { a with runtime_cls := "ContainerRuntime" }
  else a

/-- Lines 388-393: a `ZEDRuntime` whose `uses` is a valid hub reference is
resolved through `HubIO(...).pull()` (the external `hubPull`); if the resolved
reference is a `docker://` image, switch to `ContainerRuntime`. -/
def selectHub (isValidHuburi : String → Bool) (hubPull : String → String)
    (a : RuntimeArgs) : RuntimeArgs :=
  if a.runtime_cls = "ZEDRuntime" ∧ isValidHuburi a.uses then
    if (hubPull a.uses).startsWith "docker://" then
      { a with uses := hubPull a.uses, runtime_cls := "ContainerRuntime" }
    else { a with uses := hubPull a.uses }
  else a

/-- Lines 394-395: if the args carry a gateway `protocol` attribute, the
matching gateway runtime is selected, overriding any earlier choice. -/
def selectProtocol (a : RuntimeArgs) : RuntimeArgs :=
  match a.protocol with
  | some p => { a with runtime_cls := gateway_runtime_dict p }
  | none => a

/-- `BasePea._get_runtime_cls` (lines 369-398): the four selection rules
applied in source order; the `runtime_cls` field of the result is the name
passed to `get_runtime`. -/
def _get_runtime_cls (isValidHuburi : String → Bool) (hubPull : String → String)
    (defaultHost : String) (a : RuntimeArgs) : RuntimeArgs :=
  selectProtocol (selectHub isValidHuburi hubPull (selectDocker (selectRemote defaultHost a)))

/-! ### Helper lemmas -/

theorem selectRemote_protocol (defaultHost : String) (a : RuntimeArgs) :
    (selectRemote defaultHost a).protocol = a.protocol := by
  unfold selectRemote
  split <;> rfl

theorem selectDocker_protocol (a : RuntimeArgs) :
    (selectDocker a).protocol = a.protocol := by
  unfold selectDocker
  split <;> rfl

theorem selectHub_protocol (isValidHuburi : String → Bool) (hubPull : String → String)
    (a : RuntimeArgs) : (selectHub isValidHuburi hubPull a).protocol = a.protocol := by
  unfold selectHub
  split
  · split <;> rfl
  · rfl

theorem selectProtocol_cls (a : RuntimeArgs) (p : GatewayProtocolType)
    (h : a.protocol = some p) : (selectProtocol a).runtime_cls = gateway_runtime_dict p := by
  unfold selectProtocol
  rw [h]

theorem retryGo_count_le (send : Nat → Option String) :
    ∀ fuel retry, (retryGo send retry fuel).1 ≤ fuel := by
  intro fuel
  induction fuel with
  | zero => intro retry; simp [retryGo]
  | succ f ih =>
    intro retry
    simp only [retryGo]
    cases h : send retry with
    | none => simp
    | some e =>
      by_cases hf : f = 0
      · subst hf; simp
      · have := ih (retry + 1)
        simp only [hf, if_false]
        omega

theorem retryGo_first_success (send : Nat → Option String) :
    ∀ fuel retry k, retry ≤ k → k < retry + fuel → send k = none →
      (∀ j, retry ≤ j → j < k → send j ≠ none) →
      retryGo send retry fuel = (k - retry + 1, none) := by
  intro fuel
  induction fuel with
  | zero => intro retry k h1 h2 _ _; omega
  | succ f ih =>
    intro retry k h1 h2 hk hprev
    simp only [retryGo]
    rcases Nat.eq_or_lt_of_le h1 with heq | hlt
    · subst heq
      rw [hk]
      simp
    · have hrf : send retry = some ((send retry).getD "") := by
        have hne : send retry ≠ none := hprev retry (Nat.le_refl retry) hlt
        cases hr : send retry with
        | none => exact absurd hr hne
        | some e => rfl
      rw [hrf]
      have hf0 : f ≠ 0 := by omega
      simp only [hf0, if_false]
      rw [ih (retry + 1) k (by omega) (by omega) hk (fun j hj1 hj2 => hprev j (by omega) hj2)]
      have : k - (retry + 1) + 1 + 1 = k - retry + 1 := by omega
      simp [this]

theorem retryGo_all_fail (send : Nat → Option String) :
    ∀ fuel retry, 1 ≤ fuel →
      (∀ j, retry ≤ j → j < retry + fuel → send j ≠ none) →
      retryGo send retry fuel = (fuel, send (retry + fuel - 1)) := by
  intro fuel
  induction fuel with
  | zero => intro retry h _; omega
  | succ f ih =>
    intro retry _ hall
    simp only [retryGo]
    have hne : send retry ≠ none := hall retry (Nat.le_refl retry) (by omega)
    have hrf : send retry = some ((send retry).getD "") := by
      cases hr : send retry with
      | none => exact absurd hr hne
      | some e => rfl
    rw [hrf]
    by_cases hf : f = 0
    · subst hf
      simp [← hrf]
    · simp only [hf, if_false]
      rw [ih (retry + 1) (by omega) (fun j hj1 hj2 => hall j (by omega) (by omega))]
      have : retry + 1 + f - 1 = retry + (f + 1) - 1 := by omega
      simp [this]

/-! ### Claims -/

/-- Claim C1: on every execution of the entry point `run` (successful run,
runtime construction failure, or a failure inside `run_forever`), `is_shutdown`
is set by the time `run` finishes, and `is_started` is set if and only if
runtime construction succeeded; in particular, when construction throws,
`is_started` stays false, `is_shutdown` becomes true, and a supervisor whose
ready-or-shutdown combinator then fires gets `RuntimeFailToStart` from
`wait_start_success`. -/
theorem run_shutdown_and_started_iff :
    ∀ (backend : RuntimeBackendType) (argsEnv envsN cOk rOk : Bool) (ev : EventSet),
      ev.is_started = false →
      ((run backend argsEnv envsN cOk rOk ev).events.is_shutdown = true
       ∧ ((run backend argsEnv envsN cOk rOk ev).events.is_started = true ↔ cOk = true)
       ∧ (cOk = false →
           (run backend argsEnv envsN cOk rOk ev).events.is_started = false
           ∧ wait_start_success true (run backend argsEnv envsN cOk rOk ev).events
             = Except.error PeaError.runtimeFailToStart)) := by decide

/-- Concrete instance of `run_shutdown_and_started_iff`: a process-backend
execution whose runtime construction fails. -/
theorem run_shutdown_and_started_iff_witness :
    (run RuntimeBackendType.PROCESS false true false true
        ⟨false, false, false, false⟩).events.is_shutdown = true :=
  (run_shutdown_and_started_iff RuntimeBackendType.PROCESS false true false true
    ⟨false, false, false, false⟩ rfl).1

/-- Claim C2: when the ready-or-shutdown combinator fires within the ready
timeout, `wait_start_success` raises `RuntimeFailToStart` if shutdown is set
and started is not, raises `RuntimeRunForeverEarlyError` if both shutdown and
started are set, and returns successfully if shutdown is not set. -/
theorem wait_start_success_combinator_fired :
    ∀ (ev : EventSet),
      (ev.is_shutdown = true → ev.is_started = false →
        wait_start_success true ev = Except.error PeaError.runtimeFailToStart)
      ∧ (ev.is_shutdown = true → ev.is_started = true →
        wait_start_success true ev = Except.error PeaError.runtimeRunForeverEarlyError)
      ∧ (ev.is_shutdown = false → wait_start_success true ev = Except.ok ()) := by decide

/-- Concrete instance of `wait_start_success_combinator_fired`: shutdown set,
started never set. -/
theorem wait_start_success_combinator_fired_witness :
    wait_start_success true ⟨false, true, false, false⟩
      = Except.error PeaError.runtimeFailToStart :=
  (wait_start_success_combinator_fired ⟨false, true, false, false⟩).1 rfl rfl

/-- Claim C3, counterexample: `close` on a ready, not-yet-shutdown pea with a
dealer role whose DEACTIVATE exhausts its retries (a control-channel failure)
returns normally — the error is logged by the `except` clause of the ready
branch, not raised to the caller of `close`. -/
theorem close_ready_branch_swallows_error :
    (close ⟨true, false, true, false⟩
        ⟨true, true, true, false, true, true, true, true⟩).2 = CloseOutcome.normal
    ∧ CloseStep.logError ∈
        (close ⟨true, false, true, false⟩
          ⟨true, true, true, false, true, true, true, true⟩).1 := by decide

/-- Claim C3, amended: when `close()` is called with ready set and shutdown not
set, any handshake error — a control command that exhausted its retries, or the
shutdown signal missing after the control-channel timeout (which still forces a
hard terminate) — is caught inside `close` and logged; `close` always returns
normally from this branch. -/
theorem close_ready_branch_logs_handshake_errors :
    ∀ (ev : EventSet) (c : CloseEnv),
      ev.is_ready = true → ev.is_shutdown = false →
      ((close ev c).2 = CloseOutcome.normal
       ∧ (((c.isDealer && !c.deactivateOk) || (c.hasCtrlListener && !c.terminateCmdOk)
            || !c.shutdownArrives) = true →
          CloseStep.logError ∈ (close ev c).1)) := by decide

/-- Concrete instance of `close_ready_branch_logs_handshake_errors`: the
missed-shutdown-ack case, with forced terminate, still returns normally. -/
theorem close_ready_branch_logs_handshake_errors_witness :
    (close ⟨true, false, true, false⟩
        ⟨false, true, false, true, true, false, true, true⟩).2 = CloseOutcome.normal :=
  (close_ready_branch_logs_handshake_errors ⟨true, false, true, false⟩
    ⟨false, true, false, true, true, false, true, true⟩ rfl rfl).1

/-- Claim C4, counterexample: when runtime construction succeeds and
`run_forever` raises, the exception escapes `run` itself (the `except` clause
only covers the `try` body, not the `else` block), so `run` does not complete
without raising. -/
theorem run_forever_exception_escapes :
    (run RuntimeBackendType.PROCESS false true true false
        ⟨false, false, false, false⟩).outcome = RunOutcome.raised := by decide

/-- Claim C4, amended: construction failures never escape `run`; an exception
can escape `run` only when construction succeeded and the
`with runtime: runtime.run_forever()` block raised, and even then the
`finally` clause has set shutdown first, so the supervisor (in another thread
or process) still observes the failure only through the event set. -/
theorem run_error_isolation_amended :
    ∀ (backend : RuntimeBackendType) (argsEnv envsN cOk rOk : Bool) (ev : EventSet),
      ((cOk = false → (run backend argsEnv envsN cOk rOk ev).outcome = RunOutcome.normal)
       ∧ ((run backend argsEnv envsN cOk rOk ev).outcome = RunOutcome.raised →
           cOk = true ∧ rOk = false)
       ∧ (run backend argsEnv envsN cOk rOk ev).events.is_shutdown = true) := by decide

/-- Concrete instance of `run_error_isolation_amended`: a failed construction
leaves `run` returning normally. -/
theorem run_error_isolation_amended_witness :
    (run RuntimeBackendType.PROCESS false true false true
        ⟨false, false, false, false⟩).outcome = RunOutcome.normal :=
  (run_error_isolation_amended RuntimeBackendType.PROCESS false true false true
    ⟨false, false, false, false⟩).1 rfl

/-- Claim C5, counterexample: a process-backend execution with no user-supplied
env overrides (`args.env` falsy) never applies the environment overlay, even
though the overlay dict (worker name, log id) is nonempty — `_set_envs` is
guarded by `if args.env:`. -/
theorem run_overlay_not_applied_without_user_env :
    RunStep.applyEnvs ∉
      (run RuntimeBackendType.PROCESS false true true true
        ⟨false, false, false, false⟩).trace := by decide

/-- Claim C5, amended: the overlay is applied exactly when `args.env` is truthy
and the backend is not thread; the thread warning is emitted exactly when
`args.env` is truthy and the backend is thread (with `args.env` falsy both are
silently skipped); the unset pass runs exactly when the overlay dict is
nonempty and the backend is not thread, regardless of whether the overlay was
applied; application precedes runtime construction and the unset follows it. -/
theorem run_env_overlay_amended :
    ∀ (backend : RuntimeBackendType) (argsEnv envsN cOk rOk : Bool) (ev : EventSet),
      ((RunStep.applyEnvs ∈ (run backend argsEnv envsN cOk rOk ev).trace
          ↔ (argsEnv = true ∧ backend ≠ RuntimeBackendType.THREAD))
       ∧ (RunStep.warnThreadEnv ∈ (run backend argsEnv envsN cOk rOk ev).trace
          ↔ (argsEnv = true ∧ backend = RuntimeBackendType.THREAD))
       ∧ (RunStep.unsetEnvs ∈ (run backend argsEnv envsN cOk rOk ev).trace
          ↔ (envsN = true ∧ backend ≠ RuntimeBackendType.THREAD))
       ∧ (RunStep.applyEnvs ∈ (run backend argsEnv envsN cOk rOk ev).trace →
           (run backend argsEnv envsN cOk rOk ev).trace.indexOf RunStep.applyEnvs
             < (run backend argsEnv envsN cOk rOk ev).trace.indexOf RunStep.constructRuntime)
       ∧ (RunStep.unsetEnvs ∈ (run backend argsEnv envsN cOk rOk ev).trace →
           (run backend argsEnv envsN cOk rOk ev).trace.indexOf RunStep.constructRuntime
             < (run backend argsEnv envsN cOk rOk ev).trace.indexOf RunStep.unsetEnvs)) := by
  decide

/-- Concrete instance of `run_env_overlay_amended`: with user env overrides on
a process backend, the overlay is applied. -/
theorem run_env_overlay_amended_witness :
    RunStep.applyEnvs ∈
      (run RuntimeBackendType.PROCESS true true true true
        ⟨false, false, false, false⟩).trace :=
  (run_env_overlay_amended RuntimeBackendType.PROCESS true true true true
    ⟨false, false, false, false⟩).1.mpr ⟨rfl, by decide⟩

/-- Claim C6: whenever the args carry a gateway protocol, `_get_runtime_cls`
selects the matching gateway runtime class, overriding every other rule
(remote host, `docker://` image reference, hub resolution). -/
theorem get_runtime_cls_gateway_overrides :
    ∀ (isValidHuburi : String → Bool) (hubPull : String → String) (defaultHost : String)
      (a : RuntimeArgs) (p : GatewayProtocolType),
      a.protocol = some p →
      (_get_runtime_cls isValidHuburi hubPull defaultHost a).runtime_cls
        = gateway_runtime_dict p := by
  intro isValidHuburi hubPull defaultHost a p h
  unfold _get_runtime_cls
  apply selectProtocol_cls
  rw [selectHub_protocol, selectDocker_protocol, selectRemote_protocol]
  exact h

/-- Concrete instance of `get_runtime_cls_gateway_overrides`: gRPC gateway
protocol together with a `docker://` image reference still yields the gateway
runtime. -/
theorem get_runtime_cls_gateway_overrides_witness :
    (_get_runtime_cls (fun _ => false) (fun s => s) "0.0.0.0"
        ⟨"ZEDRuntime", "0.0.0.0", false, "docker://img", some GatewayProtocolType.GRPC,
          5⟩).runtime_cls = gateway_runtime_dict GatewayProtocolType.GRPC :=
  get_runtime_cls_gateway_overrides (fun _ => false) (fun s => s) "0.0.0.0"
    ⟨"ZEDRuntime", "0.0.0.0", false, "docker://img", some GatewayProtocolType.GRPC, 5⟩
    GatewayProtocolType.GRPC rfl

/-- Claim C7: for every command and every `num_retry = N`,
`_retry_control_message` performs at most `N` sends; if the first successful
attempt is attempt `k ≤ N` it stops there, returning after exactly `k` sends
with no error; and if all `N` attempts fail it performs exactly `N` sends and
re-raises the error of the last attempt. (The loop introduces no backoff
between attempts: each iteration goes straight to the next send.) -/
theorem retry_control_message_spec :
    ∀ (send : String → Nat → Option String) (command : String) (N : Nat),
      ((_retry_control_message send command N).1 ≤ N)
      ∧ (∀ k, 1 ≤ k → k ≤ N → send command k = none →
          (∀ j, 1 ≤ j → j < k → send command j ≠ none) →
          _retry_control_message send command N = (k, none))
      ∧ ((∀ j, 1 ≤ j → j ≤ N → send command j ≠ none) → 1 ≤ N →
          _retry_control_message send command N = (N, send command N)) := by
  intro send command N
  refine ⟨retryGo_count_le (send command) N 1, ?_, ?_⟩
  · intro k hk1 hkN hk hprev
    unfold _retry_control_message
    rw [retryGo_first_success (send command) N 1 k hk1 (by omega) hk
      (fun j hj1 hj2 => hprev j hj1 hj2)]
    have : k - 1 + 1 = k := by omega
    rw [this]
  · intro hall hN
    unfold _retry_control_message
    rw [retryGo_all_fail (send command) N 1 hN (fun j hj1 hj2 => hall j hj1 (by omega))]
    have : 1 + N - 1 = N := by omega
    rw [this]

/-- Concrete instances of `retry_control_message_spec`: an always-failing
channel with three retries performs exactly 3 sends and re-raises the last
failure; a channel succeeding on the second attempt returns after exactly
2 sends. -/
theorem retry_control_message_spec_witness :
    _retry_control_message (fun _ _ => some "boom") "TERMINATE" 3 = (3, some "boom")
    ∧ _retry_control_message (fun _ i => if i = 2 then none else some "err")
        "DEACTIVATE" 3 = (2, none) := by
  constructor
  · exact (retry_control_message_spec (fun _ _ => some "boom") "TERMINATE" 3).2.2
      (fun j _ _ => by simp) (by omega)
  · exact (retry_control_message_spec (fun _ i => if i = 2 then none else some "err")
      "DEACTIVATE" 3).2.1 2 (by omega) (by omega) (by simp)
      (fun j hj1 hj2 => by interval_cases j; simp)

/-- Claim C8, counterexample: `close` on a pea that is neither ready nor
shutdown, with dealer role and non-daemon mode, where ready then arrives within
the remaining ready timeout: unlike the ready branch, no DEACTIVATE is sent and
`close` does not join the worker. -/
theorem close_late_ready_differs_from_ready_branch :
    CloseStep.deactivate ∉
      (close ⟨false, false, false, false⟩
        ⟨true, true, false, true, true, true, true, true⟩).1
    ∧ CloseStep.join ∉
        (close ⟨false, false, false, false⟩
          ⟨true, true, false, true, true, true, true, true⟩).1 := by decide

/-- Claim C8, amended: in the neither-ready-nor-shutdown branch, when ready
arrives within the remaining ready timeout, `close` issues only the cancel
path — TERMINATE for control-capable runtimes, the cancel flag otherwise —
without DEACTIVATE (even for a dealer role) and without joining the worker;
a missed shutdown ack still triggers a forced terminate, but the resulting
error propagates uncaught; if the wait itself times out, the worker is
forcibly terminated as a last resort and `close` returns normally. -/
theorem close_late_ready_amended :
    ∀ (ev : EventSet) (c : CloseEnv),
      ev.is_ready = false → ev.is_shutdown = false →
      ((c.lateFires = true → c.lateReady = true →
         ((c.hasCtrlListener = true → CloseStep.sendTerminate ∈ (close ev c).1)
          ∧ (c.hasCtrlListener = false → CloseStep.setCancelFlag ∈ (close ev c).1)
          ∧ CloseStep.deactivate ∉ (close ev c).1
          ∧ CloseStep.join ∉ (close ev c).1
          ∧ ((c.hasCtrlListener = true → c.terminateCmdOk = true) →
              c.shutdownArrives = false →
              CloseStep.terminate ∈ (close ev c).1
              ∧ (close ev c).2 = CloseOutcome.raisedShutdownAckTimeout)))
       ∧ (c.lateFires = false →
           CloseStep.terminate ∈ (close ev c).1
           ∧ (close ev c).2 = CloseOutcome.normal)) := by decide

/-- Concrete instance of `close_late_ready_amended`: ready arrives late on a
control-capable runtime and TERMINATE is sent. -/
theorem close_late_ready_amended_witness :
    CloseStep.sendTerminate ∈
      (close ⟨false, false, false, false⟩
        ⟨true, true, false, true, true, true, true, true⟩).1 :=
  (((close_late_ready_amended ⟨false, false, false, false⟩
    ⟨true, true, false, true, true, true, true, true⟩ rfl rfl).1 rfl rfl).1 rfl)

/-- Claim C9, counterexample: in the late-ready branch, a missed shutdown ack
makes `close` raise without ever closing the logger. -/
theorem close_raises_without_closing_logger :
    (close ⟨false, false, false, false⟩
        ⟨true, true, false, true, true, false, true, true⟩).2
      = CloseOutcome.raisedShutdownAckTimeout
    ∧ CloseStep.closeLogger ∉
        (close ⟨false, false, false, false⟩
          ⟨true, true, false, true, true, false, true, true⟩).1 := by decide

/-- Claim C9, amended: `close` closes the logger exactly on the invocations
that return normally; the uncaught raises of the late-ready branch (missed
shutdown ack, exhausted TERMINATE retries) propagate without closing it. -/
theorem close_logger_closed_iff_normal :
    ∀ (ev : EventSet) (c : CloseEnv),
      ((close ev c).2 = CloseOutcome.normal
        ↔ CloseStep.closeLogger ∈ (close ev c).1) := by decide

/-- Concrete instance of `close_logger_closed_iff_normal`: a normally-returning
`close` (already-shutdown branch) closes the logger. -/
theorem close_logger_closed_iff_normal_witness :
    CloseStep.closeLogger ∈
      (close ⟨true, true, false, false⟩
        ⟨false, false, false, false, false, false, false, false⟩).1 :=
  (close_logger_closed_iff_normal ⟨true, true, false, false⟩
    ⟨false, false, false, false, false, false, false, false⟩).mp (by decide)

/-- Claim C10: `close` on a pea whose shutdown event is already set is a
no-op apart from closing the logger — its trace is exactly `[closeLogger]`,
so no shutdown wait, no control command, no terminate and no join happen,
and it returns normally. -/
theorem close_idempotent_after_shutdown :
    ∀ (ev : EventSet) (c : CloseEnv),
      ev.is_shutdown = true →
      ((close ev c).1 = [CloseStep.closeLogger]
       ∧ (close ev c).2 = CloseOutcome.normal) := by decide

/-- Concrete instance of `close_idempotent_after_shutdown`. -/
theorem close_idempotent_after_shutdown_witness :
    (close ⟨true, true, true, false⟩
        ⟨true, true, false, true, true, true, true, true⟩).1
      = [CloseStep.closeLogger] :=
  (close_idempotent_after_shutdown ⟨true, true, true, false⟩
    ⟨true, true, false, true, true, true, true, true⟩ rfl).1

end Jina
